import Mathlib

/-!
# Shallow embedding of `gralloc_drm.c` (openthos/oto_external_drm_gralloc)

This file embeds the buffer-object lifecycle, handle validation /
reference-counting subsystem and the lock/unlock state machine of
`src/gralloc_drm.c` and proves properties about them.

Modelling conventions:
* C pointers to handles and buffer objects become `Option Nat` ids into
  per-process heaps (`PState.handles`, `PState.bos`); `none` is the NULL
  pointer, a missing heap entry is freed storage.
* Reading a field of freed storage (a use-after-free in C, undefined
  behavior) is modelled as `Except.error` with a `Fault`.
* The allocation backend (`drm->drv`) is external: its `alloc` outcome is a
  flag in `Drm`, its `map` outcome is a per-call argument, and every call
  into it is recorded as an `Event` so that call counts can be stated.
* Machine `int` fields that can go negative (`refcount`, error returns) are
  `Int`; bitmasks and non-negative counters are `Nat`.
-/

namespace GrallocDrm

/-- Usage bitmask values, from the Android `gralloc.h` usage flags that
`gralloc_drm.c` includes (external to this repository). -/
def GRALLOC_USAGE_SW_READ_OFTEN : Nat := 0x3

def GRALLOC_USAGE_SW_READ_MASK : Nat := 0xF

def GRALLOC_USAGE_SW_WRITE_MASK : Nat := 0xF0

def GRALLOC_USAGE_HW_TEXTURE : Nat := 0x100

def GRALLOC_USAGE_HW_FB : Nat := 0x1000

def GRALLOC_USAGE_HW_VIDEO_ENCODER : Nat := 0x10000

/-- Magic tag stored in every well-formed `gralloc_drm_handle_t`. -/
def GRALLOC_DRM_HANDLE_MAGIC : Nat := 0x12345678

/-- The `EINVAL` errno value; the C functions return `-EINVAL`. -/
def EINVAL : Int := 22

/-- Calls made into the external allocation backend (`drm->drv`) or
display layer, recorded so theorems can count them. -/
inductive Event where
  | allocCall (ok : Bool)
  | freeCall
  | mapCall (write : Bool)
  | unmapCall
  | rmFbCall
  | resolveFormatCall
deriving DecidableEq, Repr

/-- Undefined behavior reached by the C code. -/
inductive Fault where
  | nullDeref
  | useAfterFree
deriving DecidableEq, Repr

/-- The device context `gralloc_drm_t` with its backend `drv`.  The backend
is external; we keep only the behavior this file's functions consult:
whether `drv->alloc` succeeds, and whether `drv->resolve_format` is
implemented (non-NULL function pointer). -/
structure Drm where
  allocOk : Bool
  resolveFormatImpl : Bool
deriving DecidableEq, Repr

/-- The buffer object `gralloc_drm_bo_t` (fields used by `gralloc_drm.c`).
`handle` is the id of its `gralloc_drm_handle_t`. -/
structure Bo where
  drm : Drm
  imported : Bool
  handle : Nat
  refcount : Int
  lock_count : Nat
  locked_for : Nat
  fb_id : Nat
deriving DecidableEq, Repr

/-- The buffer handle `gralloc_drm_handle_t`.  `name` is the backend-assigned
global buffer name (`0` = absent, the C code tests its truthiness);
`data_owner` and `data` are the process-local owner pid and cached bo
pointer. -/
structure Handle where
  magic : Nat
  width : Int
  height : Int
  format : Int
  usage : Nat
  name : Int
  prime_fd : Int
  plane_mask : Nat
  data_owner : Nat
  data : Option Nat
deriving DecidableEq, Repr

/-- Pointwise update of a heap. -/
def upd (m : Nat → Option α) (k : Nat) (v : Option α) : Nat → Option α :=
  fun i => if i = k then v else m i

/-- Process-local state: the cached pid (`gralloc_drm_pid`), the live
handles and buffer objects, and fresh-id counters standing for the
allocator's choice of addresses. -/
structure PState where
  pid : Nat
  handles : Nat → Option Handle
  bos : Nat → Option Bo
  nextHandle : Nat
  nextBo : Nat

/-- Modelled from the spec: the structural/magic check `gralloc_drm_handle`
(defined in `gralloc_drm_handle.h`, which is not under `src/`).  Per the
spec, a malformed handle "fails a structural/magic check" and validation
"fail[s] immediately with no side effects"; the structural checks are
collapsed into one magic-tag comparison.  A NULL pointer or a dangling
pointer also yields `none`. -/
def gralloc_drm_handle (st : PState) (p : Option Nat) : Option Nat :=
  match p with
  | none => none
  | some hId =>
    match st.handles hId with
    | none => none
    | some h => if h.magic = GRALLOC_DRM_HANDLE_MAGIC then some hId else none

/-- `validate_handle` (gralloc_drm.c:196).  Returns the bo pointer the C
function returns, the updated state, and the backend calls made.  The
importing branch runs only when `data_owner` differs from the current pid
and a context was passed; `drv->alloc` is attempted only when the handle
carries a backend name, and `data_owner`/`data` are overwritten whether or
not the import produced a bo. -/
def validate_handle (st : PState) (p : Option Nat) (drm : Option Drm) :
    Option Nat × PState × List Event :=
  match gralloc_drm_handle st p with
  | none => (none, st, [])
  | some hId =>
    match st.handles hId with
    | none => (none, st, [])
    | some h =>
      if h.data_owner ≠ st.pid then
        match drm with
        | none => (none, st, [])
        | some d =>
          if h.name ≠ 0 then
            if d.allocOk then
              let bId := st.nextBo
              let bo : Bo := { drm := d, imported := true, handle := hId,
                               refcount := 1, lock_count := 0, locked_for := 0,
                               fb_id := 0 }
              (some bId,
               { st with
                  bos := upd st.bos bId (some bo),
                  nextBo := bId + 1,
                  handles := (upd st.handles hId
                    (some { h with data_owner := st.pid, data := some bId })) },
               [Event.allocCall true])
            else
              (none,
               { st with handles := (upd st.handles hId
                    (some { h with data_owner := st.pid, data := none })) },
               [Event.allocCall false])
          else
            (none,
             { st with handles := (upd st.handles hId
                  (some { h with data_owner := st.pid, data := none })) },
             [])
      else
        (h.data, st, [])

/-- `gralloc_drm_bo_destroy` (gralloc_drm.c:328).  The C code captures
`handle` and `imported` before freeing; `drv->free` frees the bo storage.
Returns the new state and the external calls made. -/
def gralloc_drm_bo_destroy (st : PState) (bId : Nat) : PState × List Event :=
  match st.bos bId with
  | none => (st, [])
  | some bo =>
    if bo.refcount ≠ 0 then (st, [])
    else
      let st1 : PState := { st with bos := upd st.bos bId none }
      if bo.imported then
        match st1.handles bo.handle with
        | none => (st1, [Event.rmFbCall, Event.freeCall])
        | some h =>
          ({ st1 with handles := (upd st1.handles bo.handle
                (some { h with data_owner := 0, data := none })) },
           [Event.rmFbCall, Event.freeCall])
      else
        ({ st1 with handles := upd st1.handles bo.handle none },
         [Event.rmFbCall, Event.freeCall])

/-- `gralloc_drm_bo_decref` (gralloc_drm.c:352): `if (!--bo->refcount)
gralloc_drm_bo_destroy(bo);`.  Decrementing a freed bo is a fault. -/
def gralloc_drm_bo_decref (st : PState) (bId : Nat) :
    Except Fault (PState × List Event) :=
  match st.bos bId with
  | none => Except.error Fault.useAfterFree
  | some bo =>
    let bo1 : Bo := { bo with refcount := bo.refcount - 1 }
    let st1 : PState := { st with bos := upd st.bos bId (some bo1) }
    if bo1.refcount = 0 then Except.ok (gralloc_drm_bo_destroy st1 bId)
    else Except.ok (st1, [])

/-- `gralloc_drm_handle_register` (gralloc_drm.c:234): validate with a
context, `-EINVAL` on failure, else increment the refcount. -/
def gralloc_drm_handle_register (st : PState) (p : Option Nat) (drm : Drm) :
    Int × PState × List Event :=
  match validate_handle st p (some drm) with
  | (none, st1, evs) => (-EINVAL, st1, evs)
  | (some bId, st1, evs) =>
    match st1.bos bId with
    | none => (0, st1, evs)
    | some bo =>
      (0, { st1 with bos := (upd st1.bos bId
              (some { bo with refcount := bo.refcount + 1 })) }, evs)

/-- `gralloc_drm_handle_unregister` (gralloc_drm.c:250): validate with no
context, `-EINVAL` on failure, else decref once and — after re-reading
`bo->imported` from whatever the first decref left behind — decref a second
time when the object is imported.  Reading the imported flag of a bo the
first decref destroyed is a use-after-free. -/
def gralloc_drm_handle_unregister (st : PState) (p : Option Nat) :
    Except Fault (Int × PState × List Event) :=
  match validate_handle st p none with
  | (none, st1, evs) => Except.ok (-EINVAL, st1, evs)
  | (some bId, st1, evs) =>
    match gralloc_drm_bo_decref st1 bId with
    | Except.error f => Except.error f
    | Except.ok (st2, evs2) =>
      match st2.bos bId with
      | none => Except.error Fault.useAfterFree
      | some bo =>
        if bo.imported then
          match gralloc_drm_bo_decref st2 bId with
          | Except.error f => Except.error f
          | Except.ok (st3, evs3) => Except.ok (0, st3, evs ++ evs2 ++ evs3)
        else Except.ok (0, st2, evs ++ evs2)

/-- `create_bo_handle` (gralloc_drm.c:268), assuming `calloc` succeeds.
Zeroed fields (`name`, `data_owner`, `data`) come from `calloc`. -/
def create_bo_handle (st : PState) (width height format : Int) (usage : Nat) :
    Nat × PState :=
  let hId := st.nextHandle
  let h : Handle := { magic := GRALLOC_DRM_HANDLE_MAGIC, width := width,
                      height := height, format := format, usage := usage,
                      name := 0, prime_fd := -1, plane_mask := 0,
                      data_owner := 0, data := none }
  (hId, { st with handles := (upd st.handles hId (some h)),
                  nextHandle := hId + 1 })

/-- `gralloc_drm_bo_create` (gralloc_drm.c:295).  `planes_for_format` lives
in another file of the repository and is passed in as `pff`.  On backend
failure the handle is freed and no bo is returned. -/
def gralloc_drm_bo_create (st : PState) (drm : Drm) (pff : Int → Nat)
    (width height format : Int) (usage : Nat) :
    Option Nat × PState × List Event :=
  let (hId, st1) := create_bo_handle st width height format usage
  let st2 : PState :=
    match st1.handles hId with
    | none => st1
    | some h => { st1 with handles := (upd st1.handles hId
          (some { h with plane_mask := pff format })) }
  if drm.allocOk then
    let bId := st2.nextBo
    let bo : Bo := { drm := drm, imported := false, handle := hId,
                     refcount := 1, lock_count := 0, locked_for := 0,
                     fb_id := 0 }
    let st3 : PState := { st2 with bos := upd st2.bos bId (some bo),
                                   nextBo := bId + 1 }
    let st4 : PState :=
      match st3.handles hId with
      | none => st3
      | some h => { st3 with handles := (upd st3.handles hId
            (some { h with data_owner := st3.pid, data := some bId })) }
    (some bId, st4, [Event.allocCall true])
  else
    (none, { st2 with handles := upd st2.handles hId none },
     [Event.allocCall false])

/-- `gralloc_drm_get_gem_handle` (gralloc_drm.c:376). -/
def gralloc_drm_get_gem_handle (st : PState) (p : Option Nat) : Int :=
  match gralloc_drm_handle st p with
  | none => 0
  | some hId =>
    match st.handles hId with
    | none => 0
    | some h => h.name

/-- `gralloc_drm_get_prime_fd` (gralloc_drm.c:382). -/
def gralloc_drm_get_prime_fd (st : PState) (p : Option Nat) : Int :=
  match gralloc_drm_handle st p with
  | none => -1
  | some hId =>
    match st.handles hId with
    | none => -1
    | some h => h.prime_fd

/-- `gralloc_drm_resolve_format` (gralloc_drm.c:391).  The C code
dereferences `handle->data` and then `bo->drm` before its
`if (handle && drm->drv->resolve_format)` guard, so an invalid handle is a
NULL dereference, not a clean return. -/
def gralloc_drm_resolve_format (st : PState) (p : Option Nat) :
    Except Fault (List Event) :=
  match gralloc_drm_handle st p with
  | none => Except.error Fault.nullDeref
  | some hId =>
    match st.handles hId with
    | none => Except.error Fault.useAfterFree
    | some h =>
      match h.data with
      | none => Except.error Fault.nullDeref
      | some bId =>
        match st.bos bId with
        | none => Except.error Fault.useAfterFree
        | some bo =>
          if bo.drm.resolveFormatImpl then Except.ok [Event.resolveFormatCall]
          else Except.ok []

/-- `gralloc_drm_bo_lock` (gralloc_drm.c:407).  `husage` is the
`bo->handle->usage` field (the only handle field the function reads), and
`mapRet` is the value the external `drv->map` call would return this call
(`0` = success).  Returns the C return value, the updated bo, and the
backend calls made. -/
def gralloc_drm_bo_lock (husage : Nat) (bo : Bo) (usage : Nat) (mapRet : Int) :
    Int × Bo × List Event :=
  if husage &&& usage ≠ usage ∧
      husage &&& (GRALLOC_USAGE_SW_READ_OFTEN ||| GRALLOC_USAGE_HW_FB |||
        GRALLOC_USAGE_HW_TEXTURE ||| GRALLOC_USAGE_HW_VIDEO_ENCODER) = 0 then
    (-EINVAL, bo, [])
  else if bo.lock_count ≠ 0 ∧ bo.locked_for &&& usage ≠ usage then
    (-EINVAL, bo, [])
  else
    let u := usage ||| bo.locked_for
    if u &&& (GRALLOC_USAGE_SW_WRITE_MASK ||| GRALLOC_USAGE_SW_READ_MASK) ≠ 0
    then
      let w : Bool := u &&& GRALLOC_USAGE_SW_WRITE_MASK != 0
      if mapRet ≠ 0 then (mapRet, bo, [Event.mapCall w])
      else
        (0, { bo with lock_count := bo.lock_count + 1,
                      locked_for := bo.locked_for ||| u }, [Event.mapCall w])
    else
      (0, { bo with lock_count := bo.lock_count + 1,
                    locked_for := bo.locked_for ||| u }, [])

/-- `gralloc_drm_bo_unlock` (gralloc_drm.c:452). -/
def gralloc_drm_bo_unlock (bo : Bo) : Bo × List Event :=
  let mapped := bo.locked_for &&&
    (GRALLOC_USAGE_SW_WRITE_MASK ||| GRALLOC_USAGE_SW_READ_MASK)
  if bo.lock_count = 0 then (bo, [])
  else
    let evs := if mapped ≠ 0 then [Event.unmapCall] else []
    let bo1 : Bo := { bo with lock_count := bo.lock_count - 1 }
    let bo2 : Bo := if bo1.lock_count = 0 then { bo1 with locked_for := 0 }
                    else bo1
    (bo2, evs)

/-- Observable outcome of an unregister call: the fault it hits, or the C
return value.  (The full result also carries the state, whose function-typed
heaps have no decidable equality, so concrete tests project it away.) -/
def unregisterOutcome (st : PState) (p : Option Nat) : Except Fault Int :=
  (gralloc_drm_handle_unregister st p).map (fun r => r.1)

/-- State after an unregister call (unchanged on a fault). -/
def unregisterState (st : PState) (p : Option Nat) : PState :=
  match gralloc_drm_handle_unregister st p with
  | Except.ok r => r.2.1
  | Except.error _ => st

/-- Iterated `gralloc_drm_handle_register`, keeping the state. -/
def registerN (st : PState) (p : Option Nat) (d : Drm) : Nat → PState
  | 0 => st
  | Nat.succ n => (gralloc_drm_handle_register (registerN st p d n) p d).2.1

/-- Iterated `gralloc_drm_handle_unregister`, keeping the state. -/
def unregisterN (st : PState) (p : Option Nat) : Nat → PState
  | 0 => st
  | Nat.succ n => unregisterState (unregisterN st p n) p

/-- All of the first `n` iterated unregister calls returned success (`0`). -/
def unregisterAllOk (st : PState) (p : Option Nat) : Nat → Prop
  | 0 => True
  | Nat.succ n => unregisterAllOk st p n ∧
      unregisterOutcome (unregisterN st p n) p = Except.ok 0

/-- `st` with the bo at `bId` replaced by `bo` at refcount `c` (the family
of states traversed by repeated register/unregister calls). -/
def withRefcount (st : PState) (bId : Nat) (bo : Bo) (c : Int) : PState :=
  { st with bos := upd st.bos bId (some { bo with refcount := c }) }

/-! ### Concrete states used by witnesses, counterexamples and tests -/

/-- A backend whose `alloc` succeeds and that has no `resolve_format`. -/
def drm0 : Drm := { allocOk := true, resolveFormatImpl := false }

/-- An unlocked, locally created bo with one reference. -/
def bo0 : Bo := { drm := drm0, imported := false, handle := 0, refcount := 1,
                  lock_count := 0, locked_for := 0, fb_id := 0 }

/-- A bo holding one CPU (read/write often) lock. -/
def boNest : Bo := { bo0 with lock_count := 1, locked_for := 0x33 }

/-- A bo holding two CPU (read/write often) locks. -/
def boNest2 : Bo := { bo0 with lock_count := 2, locked_for := 0x33 }

/-- A well-formed handle owned by process 1, cached bo id 0. -/
def h0 : Handle := { magic := GRALLOC_DRM_HANDLE_MAGIC, width := 2,
                     height := 2, format := 1, usage := 0x33, name := 7,
                     prime_fd := 3, plane_mask := 1, data_owner := 1,
                     data := some 0 }

/-- Process state of pid 1 holding `h0` (id 0) and `bo0` (id 0). -/
def st0 : PState := { pid := 1,
                      handles := upd (fun _ => none) 0 (some h0),
                      bos := upd (fun _ => none) 0 (some bo0),
                      nextHandle := 1, nextBo := 1 }

/-- `st0` after one registration of handle 0 (refcount 2). -/
def st0r : PState := (gralloc_drm_handle_register st0 (some 0) drm0).2.1

/-- `st0r` after one unregistration of handle 0 (refcount back to 1). -/
def st0ru : PState := unregisterState st0r (some 0)

/-- A well-formed handle that arrived from another process (owner pid 0). -/
def hImp : Handle := { h0 with data_owner := 0, data := none }

/-- Process state of pid 1 that has only received `hImp`. -/
def stImp : PState := { pid := 1,
                        handles := upd (fun _ => none) 0 (some hImp),
                        bos := fun _ => none,
                        nextHandle := 1, nextBo := 0 }

/-- An imported bo with two references (import + one registration). -/
def boImp2 : Bo := { drm := drm0, imported := true, handle := 0,
                     refcount := 2, lock_count := 0, locked_for := 0,
                     fb_id := 0 }

/-- Process state of pid 1 with imported `boImp2` cached for handle 0. -/
def stImp2 : PState := { pid := 1,
                         handles := upd (fun _ => none) 0 (some h0),
                         bos := upd (fun _ => none) 0 (some boImp2),
                         nextHandle := 1, nextBo := 1 }

/-- A foreign handle carrying no backend name: import must fail. -/
def hNoName : Handle := { hImp with name := 0 }

/-- Process state of pid 1 that has only received `hNoName`. -/
def stNoName : PState := { stImp with
                           handles := upd (fun _ => none) 0 (some hNoName) }

/-! ### Heap-update lemmas -/

theorem upd_self (m : Nat → Option α) (k : Nat) (v : Option α) :
    upd m k v k = v := by
  simp [upd]

theorem upd_other (m : Nat → Option α) (k i : Nat) (v : Option α)
    (h : i ≠ k) : upd m k v i = m i := by
  simp [upd, h]

theorem upd_upd (m : Nat → Option α) (k : Nat) (v v2 : Option α) :
    upd (upd m k v) k v2 = upd m k v2 := by
  funext i
  by_cases h : i = k <;> simp [upd, h]

theorem upd_eq_self (m : Nat → Option α) (k : Nat) (v : Option α)
    (h : m k = v) : upd m k v = m := by
  funext i
  by_cases hik : i = k <;> simp [upd, hik, h]

/-! ### Step lemmas about validation, registration and refcounting -/

theorem validate_handle_owner (st : PState) (hId : Nat) (h : Handle)
    (hh : st.handles hId = some h) (hm : h.magic = GRALLOC_DRM_HANDLE_MAGIC)
    (ho : h.data_owner = st.pid) (drm : Option Drm) :
    validate_handle st (some hId) drm = (h.data, st, []) := by
  simp [validate_handle, gralloc_drm_handle, hh, hm, ho]

theorem register_owner (st : PState) (hId bId : Nat) (h : Handle) (bo : Bo)
    (hh : st.handles hId = some h) (hm : h.magic = GRALLOC_DRM_HANDLE_MAGIC)
    (ho : h.data_owner = st.pid) (hd : h.data = some bId)
    (hb : st.bos bId = some bo) (d : Drm) :
    gralloc_drm_handle_register st (some hId) d =
      (0, { st with bos := (upd st.bos bId
              (some { bo with refcount := bo.refcount + 1 })) }, []) := by
  simp [gralloc_drm_handle_register,
    validate_handle_owner st hId h hh hm ho (some d), hd, hb]

theorem decref_alive (st : PState) (bId : Nat) (bo : Bo)
    (hb : st.bos bId = some bo) (hr : bo.refcount - 1 ≠ 0) :
    gralloc_drm_bo_decref st bId = Except.ok
      ({ st with bos := (upd st.bos bId
          (some { bo with refcount := bo.refcount - 1 })) }, []) := by
  simp [gralloc_drm_bo_decref, hb, hr]

theorem decref_destroy_local (st : PState) (bId : Nat) (bo : Bo)
    (hb : st.bos bId = some bo) (hr : bo.refcount - 1 = 0)
    (him : bo.imported = false) :
    gralloc_drm_bo_decref st bId = Except.ok
      ({ st with bos := upd st.bos bId none,
                 handles := upd st.handles bo.handle none },
       [Event.rmFbCall, Event.freeCall]) := by
  simp [gralloc_drm_bo_decref, gralloc_drm_bo_destroy, hb, hr, him,
    upd_self, upd_upd]

theorem decref_destroy_imported (st : PState) (bId : Nat) (bo : Bo)
    (hh2 : Handle) (hb : st.bos bId = some bo) (hr : bo.refcount - 1 = 0)
    (him : bo.imported = true) (hht : st.handles bo.handle = some hh2) :
    gralloc_drm_bo_decref st bId = Except.ok
      ({ st with bos := upd st.bos bId none,
                 handles := (upd st.handles bo.handle
                   (some { hh2 with data_owner := 0, data := none })) },
       [Event.rmFbCall, Event.freeCall]) := by
  simp [gralloc_drm_bo_decref, gralloc_drm_bo_destroy, hb, hr, him, hht,
    upd_self, upd_upd]

theorem destroy_removes (st : PState) (bId : Nat) (bo : Bo)
    (hb : st.bos bId = some bo) (hr : bo.refcount = 0) :
    (gralloc_drm_bo_destroy st bId).1.bos bId = none := by
  unfold gralloc_drm_bo_destroy
  rw [hb]
  by_cases him : bo.imported <;>
    cases hht : st.handles bo.handle <;>
      simp [hr, him, hht, upd_self, upd_other]

theorem unregister_owner_local (st : PState) (hId bId : Nat) (h : Handle)
    (bo : Bo)
    (hh : st.handles hId = some h) (hm : h.magic = GRALLOC_DRM_HANDLE_MAGIC)
    (ho : h.data_owner = st.pid) (hd : h.data = some bId)
    (hb : st.bos bId = some bo) (him : bo.imported = false)
    (hr : bo.refcount - 1 ≠ 0) :
    gralloc_drm_handle_unregister st (some hId) = Except.ok
      (0, { st with bos := (upd st.bos bId
              (some { bo with refcount := bo.refcount - 1 })) }, []) := by
  simp [gralloc_drm_handle_unregister,
    validate_handle_owner st hId h hh hm ho none, hd,
    decref_alive st bId bo hb hr, upd_self, him]

theorem unregister_owner_destroy_faults (st : PState) (hId bId : Nat)
    (h : Handle) (bo : Bo)
    (hh : st.handles hId = some h) (hm : h.magic = GRALLOC_DRM_HANDLE_MAGIC)
    (ho : h.data_owner = st.pid) (hd : h.data = some bId)
    (hb : st.bos bId = some bo) (hr : bo.refcount = 1) :
    gralloc_drm_handle_unregister st (some hId) =
      Except.error Fault.useAfterFree := by
  have hr0 : bo.refcount - 1 = 0 := by omega
  have hdec : gralloc_drm_bo_decref st bId =
      Except.ok (gralloc_drm_bo_destroy
        ({ st with bos := (upd st.bos bId
            (some { bo with refcount := bo.refcount - 1 })) }) bId) := by
    simp [gralloc_drm_bo_decref, hb, hr0]
  have hrm := destroy_removes
    ({ st with bos := (upd st.bos bId
        (some { bo with refcount := bo.refcount - 1 })) }) bId
    { bo with refcount := bo.refcount - 1 } (upd_self _ _ _) hr0
  simp [gralloc_drm_handle_unregister,
    validate_handle_owner st hId h hh hm ho none, hd, hdec, hrm]

/-! ### Lock/unlock claims (C3, C4, C5) -/

/-- C5: `gralloc_drm_bo_unlock` with `lock_count = 0` is a silent no-op that
changes nothing and makes no backend unmap call; with `lock_count > 0` it
calls the backend's unmap if and only if `locked_for` contains a CPU
read/write bit, decrements `lock_count` by exactly one, and resets
`locked_for` to empty exactly when `lock_count` reaches zero. -/
theorem claim_C5_unlock (bo : Bo) :
    (bo.lock_count = 0 → gralloc_drm_bo_unlock bo = (bo, [])) ∧
    (bo.lock_count ≠ 0 →
      ((gralloc_drm_bo_unlock bo).2 = [Event.unmapCall] ↔
        bo.locked_for &&&
          (GRALLOC_USAGE_SW_WRITE_MASK ||| GRALLOC_USAGE_SW_READ_MASK) ≠ 0) ∧
      ((gralloc_drm_bo_unlock bo).2 = [] ↔
        bo.locked_for &&&
          (GRALLOC_USAGE_SW_WRITE_MASK ||| GRALLOC_USAGE_SW_READ_MASK) = 0) ∧
      (gralloc_drm_bo_unlock bo).1.lock_count = bo.lock_count - 1 ∧
      ((gralloc_drm_bo_unlock bo).1.locked_for =
        if bo.lock_count - 1 = 0 then 0 else bo.locked_for)) := by
  constructor
  · intro h
    simp [gralloc_drm_bo_unlock, h]
  · intro h
    by_cases hm : bo.locked_for &&&
        (GRALLOC_USAGE_SW_WRITE_MASK ||| GRALLOC_USAGE_SW_READ_MASK) = 0 <;>
      by_cases hc : bo.lock_count - 1 = 0 <;>
        simp [gralloc_drm_bo_unlock, h, hm, hc]

theorem claim_C5_unlock_witness :
    boNest.lock_count ≠ 0 ∧
    ((gralloc_drm_bo_unlock boNest).2 = [Event.unmapCall] ↔
      boNest.locked_for &&&
        (GRALLOC_USAGE_SW_WRITE_MASK ||| GRALLOC_USAGE_SW_READ_MASK) ≠ 0) ∧
    ((gralloc_drm_bo_unlock boNest).2 = [] ↔
      boNest.locked_for &&&
        (GRALLOC_USAGE_SW_WRITE_MASK ||| GRALLOC_USAGE_SW_READ_MASK) = 0) ∧
    (gralloc_drm_bo_unlock boNest).1.lock_count = boNest.lock_count - 1 ∧
    ((gralloc_drm_bo_unlock boNest).1.locked_for =
      if boNest.lock_count - 1 = 0 then 0 else boNest.locked_for) :=
  ⟨by decide, (claim_C5_unlock boNest).2 (by decide)⟩

/-- C4 counterexample: the claim's exception set is only the
display/texture/encode flags, but the code's exception mask also contains
`GRALLOC_USAGE_SW_READ_OFTEN`.  A handle whose usage is only
`SW_READ_OFTEN` (`0x3`), locked with the uncovered usage `HW_TEXTURE`
(`0x100`), is an instance of the claim's failure case (1) — requested usage
not contained in the handle's usage, no display/texture/encode flag — yet
the lock succeeds instead of returning `-EINVAL`. -/
theorem claim_C4_counterexample :
    (0x3 : Nat) &&& (0x100 : Nat) ≠ 0x100 ∧
    (0x3 : Nat) &&& (GRALLOC_USAGE_HW_FB ||| GRALLOC_USAGE_HW_TEXTURE |||
      GRALLOC_USAGE_HW_VIDEO_ENCODER) = 0 ∧
    (gralloc_drm_bo_lock 0x3 bo0 0x100 0).1 = 0 ∧
    (gralloc_drm_bo_lock 0x3 bo0 0x100 0).1 ≠ -EINVAL := by
  decide

/-- C4 (amended): `gralloc_drm_bo_lock` fails exactly in the claim's three
cases once the exception set is taken to be the code's mask
`SW_READ_OFTEN | HW_FB | HW_TEXTURE | HW_VIDEO_ENCODER` (the claim omitted
`SW_READ_OFTEN`); in every failure case the bo — in particular `lock_count`
and `locked_for` — is unchanged, cases (1) and (2) return `-EINVAL`, and
case (3) returns the backend map error. -/
theorem claim_C4_lock_failure_cases (husage : Nat) (bo : Bo) (usage : Nat)
    (mapRet : Int) :
    ((gralloc_drm_bo_lock husage bo usage mapRet).1 ≠ 0 ↔
      ((husage &&& usage ≠ usage ∧
        husage &&& (GRALLOC_USAGE_SW_READ_OFTEN ||| GRALLOC_USAGE_HW_FB |||
          GRALLOC_USAGE_HW_TEXTURE ||| GRALLOC_USAGE_HW_VIDEO_ENCODER) = 0) ∨
       (bo.lock_count ≠ 0 ∧ bo.locked_for &&& usage ≠ usage) ∨
       ((usage ||| bo.locked_for) &&&
          (GRALLOC_USAGE_SW_WRITE_MASK ||| GRALLOC_USAGE_SW_READ_MASK) ≠ 0 ∧
        mapRet ≠ 0))) ∧
    ((gralloc_drm_bo_lock husage bo usage mapRet).1 ≠ 0 →
      (gralloc_drm_bo_lock husage bo usage mapRet).2.1 = bo) ∧
    ((husage &&& usage ≠ usage ∧
        husage &&& (GRALLOC_USAGE_SW_READ_OFTEN ||| GRALLOC_USAGE_HW_FB |||
          GRALLOC_USAGE_HW_TEXTURE ||| GRALLOC_USAGE_HW_VIDEO_ENCODER) = 0) ∨
      (bo.lock_count ≠ 0 ∧ bo.locked_for &&& usage ≠ usage) →
      (gralloc_drm_bo_lock husage bo usage mapRet).1 = -EINVAL) ∧
    (¬(husage &&& usage ≠ usage ∧
        husage &&& (GRALLOC_USAGE_SW_READ_OFTEN ||| GRALLOC_USAGE_HW_FB |||
          GRALLOC_USAGE_HW_TEXTURE ||| GRALLOC_USAGE_HW_VIDEO_ENCODER) = 0) →
      ¬(bo.lock_count ≠ 0 ∧ bo.locked_for &&& usage ≠ usage) →
      (usage ||| bo.locked_for) &&&
        (GRALLOC_USAGE_SW_WRITE_MASK ||| GRALLOC_USAGE_SW_READ_MASK) ≠ 0 →
      mapRet ≠ 0 →
      (gralloc_drm_bo_lock husage bo usage mapRet).1 = mapRet) := by
  have hE : (-EINVAL : Int) ≠ 0 := by decide
  unfold gralloc_drm_bo_lock
  by_cases h1 : husage &&& usage ≠ usage ∧
      husage &&& (GRALLOC_USAGE_SW_READ_OFTEN ||| GRALLOC_USAGE_HW_FB |||
        GRALLOC_USAGE_HW_TEXTURE ||| GRALLOC_USAGE_HW_VIDEO_ENCODER) = 0
  · simp [h1, hE]
  · by_cases h2 : bo.lock_count ≠ 0 ∧ bo.locked_for &&& usage ≠ usage
    · simp [h1, h2, hE]
    · by_cases h3 : (usage ||| bo.locked_for) &&&
          (GRALLOC_USAGE_SW_WRITE_MASK ||| GRALLOC_USAGE_SW_READ_MASK) ≠ 0
      · by_cases h4 : mapRet ≠ 0 <;> simp [h1, h2, h3, h4]
      · simp [h1, h2, h3]

theorem claim_C4_lock_failure_cases_witness :
    (gralloc_drm_bo_lock 0 bo0 1 0).1 ≠ 0 ∧
    (gralloc_drm_bo_lock 0 bo0 1 0).2.1 = bo0 ∧
    (gralloc_drm_bo_lock 0 bo0 1 0).1 = -EINVAL :=
  ⟨by decide,
   (claim_C4_lock_failure_cases 0 bo0 1 0).2.1 (by decide),
   (claim_C4_lock_failure_cases 0 bo0 1 0).2.2.1 (Or.inl (by decide))⟩

/-- C3 counterexample: with one CPU lock already held (`boNest`, so mapped
usage is already present and a further lock is no transition), a second
compatible CPU lock succeeds and still calls the backend map; and an unlock
that is not the release of the last mapped-usage lock (`boNest2`, two
locks) still calls the backend unmap — so over two nested CPU locks map and
unmap each run twice, not once. -/
theorem claim_C3_counterexample :
    boNest.lock_count ≠ 0 ∧
    boNest.locked_for &&&
      (GRALLOC_USAGE_SW_WRITE_MASK ||| GRALLOC_USAGE_SW_READ_MASK) ≠ 0 ∧
    (gralloc_drm_bo_lock 0x33 boNest 0x33 0).1 = 0 ∧
    (gralloc_drm_bo_lock 0x33 boNest 0x33 0).2.2 = [Event.mapCall true] ∧
    (gralloc_drm_bo_unlock boNest2).2 = [Event.unmapCall] ∧
    (gralloc_drm_bo_unlock boNest2).1.lock_count ≠ 0 := by
  decide

/-- C3 (amended): a successful lock whose usage union (requested usage with
the already-locked usage) has no CPU read/write bit never calls the
backend's map; a successful lock whose union has a CPU read/write bit calls
map exactly once on that call — every such call, including when a mapping
is already active, not only on the transition from unmapped to mapped; and
unmap is called exactly once by every unlock performed while `lock_count`
is positive and `locked_for` contains a CPU read/write bit — so n nested
CPU locks produce n unmap calls, not a single one at the last release. -/
theorem claim_C3_map_unmap_calls (husage : Nat) (bo : Bo) (usage : Nat)
    (mapRet : Int) :
    ((gralloc_drm_bo_lock husage bo usage mapRet).1 = 0 →
      (usage ||| bo.locked_for) &&&
        (GRALLOC_USAGE_SW_WRITE_MASK ||| GRALLOC_USAGE_SW_READ_MASK) = 0 →
      (gralloc_drm_bo_lock husage bo usage mapRet).2.2 = []) ∧
    ((gralloc_drm_bo_lock husage bo usage mapRet).1 = 0 →
      (usage ||| bo.locked_for) &&&
        (GRALLOC_USAGE_SW_WRITE_MASK ||| GRALLOC_USAGE_SW_READ_MASK) ≠ 0 →
      (gralloc_drm_bo_lock husage bo usage mapRet).2.2 =
        [Event.mapCall
          ((usage ||| bo.locked_for) &&& GRALLOC_USAGE_SW_WRITE_MASK != 0)]) ∧
    ((gralloc_drm_bo_unlock bo).2 = [Event.unmapCall] ↔
      bo.lock_count ≠ 0 ∧
      bo.locked_for &&&
        (GRALLOC_USAGE_SW_WRITE_MASK ||| GRALLOC_USAGE_SW_READ_MASK) ≠ 0) := by
  have hE : (-EINVAL : Int) ≠ 0 := by decide
  refine ⟨?_, ?_, ?_⟩
  · intro hok hcpu
    unfold gralloc_drm_bo_lock at hok ⊢
    by_cases h1 : husage &&& usage ≠ usage ∧
        husage &&& (GRALLOC_USAGE_SW_READ_OFTEN ||| GRALLOC_USAGE_HW_FB |||
          GRALLOC_USAGE_HW_TEXTURE ||| GRALLOC_USAGE_HW_VIDEO_ENCODER) = 0
    · simp [h1, hE] at hok
    · by_cases h2 : bo.lock_count ≠ 0 ∧ bo.locked_for &&& usage ≠ usage
      · simp [h1, h2, hE] at hok
      · simp [h1, h2, hcpu]
  · intro hok hcpu
    unfold gralloc_drm_bo_lock at hok ⊢
    by_cases h1 : husage &&& usage ≠ usage ∧
        husage &&& (GRALLOC_USAGE_SW_READ_OFTEN ||| GRALLOC_USAGE_HW_FB |||
          GRALLOC_USAGE_HW_TEXTURE ||| GRALLOC_USAGE_HW_VIDEO_ENCODER) = 0
    · simp [h1, hE] at hok
    · by_cases h2 : bo.lock_count ≠ 0 ∧ bo.locked_for &&& usage ≠ usage
      · simp [h1, h2, hE] at hok
      · by_cases h4 : mapRet ≠ 0
        · simp [h1, h2, hcpu, h4] at hok
        · simp [h1, h2, hcpu, h4]
  · by_cases h0 : bo.lock_count = 0
    · simp [gralloc_drm_bo_unlock, h0]
    · by_cases hm : bo.locked_for &&&
          (GRALLOC_USAGE_SW_WRITE_MASK ||| GRALLOC_USAGE_SW_READ_MASK) = 0 <;>
        simp [gralloc_drm_bo_unlock, h0, hm]

theorem claim_C3_map_unmap_calls_witness :
    ((gralloc_drm_bo_lock 0x1100 bo0 0x1100 0).1 = 0 ∧
      (0x1100 ||| bo0.locked_for) &&&
        (GRALLOC_USAGE_SW_WRITE_MASK ||| GRALLOC_USAGE_SW_READ_MASK) = 0 ∧
      (gralloc_drm_bo_lock 0x1100 bo0 0x1100 0).2.2 = []) ∧
    ((gralloc_drm_bo_lock 0x33 boNest 0x33 0).1 = 0 ∧
      (0x33 ||| boNest.locked_for) &&&
        (GRALLOC_USAGE_SW_WRITE_MASK ||| GRALLOC_USAGE_SW_READ_MASK) ≠ 0 ∧
      (gralloc_drm_bo_lock 0x33 boNest 0x33 0).2.2 =
        [Event.mapCall
          ((0x33 ||| boNest.locked_for) &&& GRALLOC_USAGE_SW_WRITE_MASK != 0)]) :=
  ⟨⟨by decide, by decide,
    (claim_C3_map_unmap_calls 0x1100 bo0 0x1100 0).1 (by decide) (by decide)⟩,
   ⟨by decide, by decide,
    (claim_C3_map_unmap_calls 0x33 boNest 0x33 0).2.1 (by decide) (by decide)⟩⟩

/-! ### Families of states reached by iterated register/unregister -/

theorem withRefcount_bos (st : PState) (bId : Nat) (bo : Bo) (c : Int) :
    (withRefcount st bId bo c).bos bId = some { bo with refcount := c } :=
  upd_self _ _ _

theorem withRefcount_eq_self (st : PState) (bId : Nat) (bo : Bo)
    (hb : st.bos bId = some bo) :
    withRefcount st bId bo bo.refcount = st := by
  unfold withRefcount
  have h1 : ({ bo with refcount := bo.refcount } : Bo) = bo := rfl
  rw [h1, upd_eq_self st.bos bId (some bo) hb]

theorem register_fam (st : PState) (hId bId : Nat) (h : Handle) (bo : Bo)
    (c : Int) (d : Drm)
    (hh : st.handles hId = some h) (hm : h.magic = GRALLOC_DRM_HANDLE_MAGIC)
    (ho : h.data_owner = st.pid) (hd : h.data = some bId) :
    gralloc_drm_handle_register (withRefcount st bId bo c) (some hId) d =
      (0, withRefcount st bId bo (c + 1), []) := by
  have hstep := register_owner (withRefcount st bId bo c) hId bId h
    { bo with refcount := c } hh hm ho hd (upd_self _ _ _) d
  rw [hstep]
  simp [withRefcount, upd_upd]

theorem unregister_fam (st : PState) (hId bId : Nat) (h : Handle) (bo : Bo)
    (c : Int)
    (hh : st.handles hId = some h) (hm : h.magic = GRALLOC_DRM_HANDLE_MAGIC)
    (ho : h.data_owner = st.pid) (hd : h.data = some bId)
    (him : bo.imported = false) (hc : c - 1 ≠ 0) :
    gralloc_drm_handle_unregister (withRefcount st bId bo c) (some hId) =
      Except.ok (0, withRefcount st bId bo (c - 1), []) := by
  have hstep := unregister_owner_local (withRefcount st bId bo c) hId bId h
    { bo with refcount := c } hh hm ho hd (upd_self _ _ _) him hc
  rw [hstep]
  simp [withRefcount, upd_upd]

theorem registerN_fam (st : PState) (hId bId : Nat) (h : Handle) (bo : Bo)
    (d : Drm)
    (hh : st.handles hId = some h) (hm : h.magic = GRALLOC_DRM_HANDLE_MAGIC)
    (ho : h.data_owner = st.pid) (hd : h.data = some bId) (n : Nat) :
    ∀ c : Int, registerN (withRefcount st bId bo c) (some hId) d n =
      withRefcount st bId bo (c + n) := by
  induction n with
  | zero =>
    intro c
    simp [registerN]
  | succ n ih =>
    intro c
    show (gralloc_drm_handle_register
      (registerN (withRefcount st bId bo c) (some hId) d n) (some hId) d).2.1
        = _
    rw [ih c, register_fam st hId bId h bo (c + n) d hh hm ho hd]
    have harith : c + (n : Int) + 1 = c + ((n + 1 : Nat) : Int) := by
      push_cast
      ring
    simp [harith]

theorem unregisterN_fam (st : PState) (hId bId : Nat) (h : Handle) (bo : Bo)
    (hh : st.handles hId = some h) (hm : h.magic = GRALLOC_DRM_HANDLE_MAGIC)
    (ho : h.data_owner = st.pid) (hd : h.data = some bId)
    (him : bo.imported = false) (k : Nat) :
    ∀ c : Int, (k : Int) < c →
      unregisterN (withRefcount st bId bo c) (some hId) k =
        withRefcount st bId bo (c - k) ∧
      unregisterAllOk (withRefcount st bId bo c) (some hId) k := by
  induction k with
  | zero =>
    intro c hc
    exact ⟨by simp [unregisterN], trivial⟩
  | succ k ih =>
    intro c hc
    have hk : (k : Int) < c := by
      push_cast at hc
      omega
    obtain ⟨hstate, hok⟩ := ih c hk
    have hc1 : c - (k : Int) - 1 ≠ 0 := by
      push_cast at hc
      omega
    have hstep := unregister_fam st hId bId h bo (c - k) hh hm ho hd him hc1
    constructor
    · show unregisterState
        (unregisterN (withRefcount st bId bo c) (some hId) k) (some hId) = _
      rw [hstate]
      unfold unregisterState
      rw [hstep]
      have harith : c - (k : Int) - 1 = c - ((k + 1 : Nat) : Int) := by
        push_cast
        ring
      simp [harith]
    · refine ⟨hok, ?_⟩
      rw [hstate]
      unfold unregisterOutcome
      rw [hstep]
      rfl

/-! ### Unregister ordering claim (C1) and destruction claim (C6) -/

/-- C1: when lookup-only validation finds a bo, unregister decrements its
refcount once and, if the object is marked imported, a second time, in that
order — the import-originated reference last.  Concretely: a non-imported
bo loses one reference; an imported bo loses two; for an imported bo with
exactly two references the first decrement leaves the object alive and the
second (the import reference) is the one that triggers destruction and
clears the handle's process-local fields; and when the first decrement
already destroys the object, the subsequent read of the freed object's own
flag is a use-after-free, exactly as the claim's ordering
acknowledges ("the first decrement may already trigger destruction and
invalidate the object"). -/
theorem claim_C1_unregister_decrement_order (st : PState) (hId bId : Nat)
    (h : Handle) (bo : Bo)
    (hh : st.handles hId = some h) (hm : h.magic = GRALLOC_DRM_HANDLE_MAGIC)
    (ho : h.data_owner = st.pid) (hd : h.data = some bId)
    (hb : st.bos bId = some bo) (hbh : bo.handle = hId) :
    (bo.imported = false → bo.refcount - 1 ≠ 0 →
      gralloc_drm_handle_unregister st (some hId) = Except.ok
        (0, { st with bos := (upd st.bos bId
                (some { bo with refcount := bo.refcount - 1 })) }, [])) ∧
    (bo.imported = true → bo.refcount - 1 ≠ 0 → bo.refcount - 2 ≠ 0 →
      gralloc_drm_handle_unregister st (some hId) = Except.ok
        (0, { st with bos := (upd st.bos bId
                (some { bo with refcount := bo.refcount - 2 })) }, [])) ∧
    (bo.imported = true → bo.refcount = 2 →
      gralloc_drm_handle_unregister st (some hId) = Except.ok
        (0, { st with bos := upd st.bos bId none,
                      handles := (upd st.handles hId
                        (some { h with data_owner := 0, data := none })) },
         [Event.rmFbCall, Event.freeCall])) ∧
    (bo.refcount = 1 →
      gralloc_drm_handle_unregister st (some hId) =
        Except.error Fault.useAfterFree) := by
  refine ⟨?_, ?_, ?_, ?_⟩
  · intro him hr1
    exact unregister_owner_local st hId bId h bo hh hm ho hd hb him hr1
  · intro him hr1 hr2
    have h1 := decref_alive st bId bo hb hr1
    have h2 := decref_alive
      ({ st with bos := (upd st.bos bId
          (some { bo with refcount := bo.refcount - 1 })) }) bId
      { bo with refcount := bo.refcount - 1 } (upd_self _ _ _)
      (show bo.refcount - 1 - 1 ≠ 0 by omega)
    have harith : bo.refcount - 1 - 1 = bo.refcount - 2 := by omega
    simp only [him, hbh, harith] at h1 h2
    simp [gralloc_drm_handle_unregister,
      validate_handle_owner st hId h hh hm ho none, hd, h1, upd_self, him,
      h2, upd_upd, harith, hbh]
  · intro him hr2
    have hr1 : bo.refcount - 1 ≠ 0 := by omega
    have h1 := decref_alive st bId bo hb hr1
    have h2 := decref_destroy_imported
      ({ st with bos := (upd st.bos bId
          (some { bo with refcount := bo.refcount - 1 })) }) bId
      { bo with refcount := bo.refcount - 1 } h (upd_self _ _ _)
      (show bo.refcount - 1 - 1 = 0 by omega) him (by simpa [hbh] using hh)
    simp only [him, hbh] at h1 h2
    simp [gralloc_drm_handle_unregister,
      validate_handle_owner st hId h hh hm ho none, hd, h1, upd_self, him,
      h2, upd_upd, hbh]
  · intro hr
    exact unregister_owner_destroy_faults st hId bId h bo hh hm ho hd hb hr

theorem claim_C1_unregister_decrement_order_witness :
    stImp2.handles 0 = some h0 ∧ stImp2.bos 0 = some boImp2 ∧
    boImp2.imported = true ∧ boImp2.refcount = 2 ∧
    gralloc_drm_handle_unregister stImp2 (some 0) = Except.ok
      (0, { stImp2 with bos := upd stImp2.bos 0 none,
                        handles := (upd stImp2.handles 0
                          (some { h0 with data_owner := 0, data := none })) },
       [Event.rmFbCall, Event.freeCall]) :=
  ⟨rfl, rfl, rfl, rfl,
   ((claim_C1_unregister_decrement_order stImp2 0 0 h0 boImp2
      rfl rfl rfl rfl rfl rfl).2.2.1) rfl rfl⟩

/-- C6: `gralloc_drm_bo_decref` decrements the refcount by one and performs
the full destruction sequence exactly when the result is zero — remove the
framebuffer binding, free the backend allocation, then free the handle (for
a local object) or reset its process-local fields (for an imported one);
`gralloc_drm_bo_create` followed immediately by `gralloc_drm_bo_decref`
leaves no live backend allocation (the one alloc call is matched by the one
free call and the bo slot is gone); and `gralloc_drm_bo_destroy` invoked
while the refcount is still positive is a no-op. -/
theorem claim_C6_decref_destruction (st : PState) (bId : Nat) (bo : Bo)
    (stc : PState) (d : Drm) (pff : Int → Nat) (w hgt fmt : Int) (u : Nat) :
    (st.bos bId = some bo → bo.refcount - 1 ≠ 0 →
      gralloc_drm_bo_decref st bId = Except.ok
        ({ st with bos := (upd st.bos bId
            (some { bo with refcount := bo.refcount - 1 })) }, [])) ∧
    (st.bos bId = some bo → bo.refcount - 1 = 0 → bo.imported = false →
      gralloc_drm_bo_decref st bId = Except.ok
        ({ st with bos := upd st.bos bId none,
                   handles := upd st.handles bo.handle none },
         [Event.rmFbCall, Event.freeCall])) ∧
    (∀ hh2, st.bos bId = some bo → bo.refcount - 1 = 0 →
      bo.imported = true → st.handles bo.handle = some hh2 →
      gralloc_drm_bo_decref st bId = Except.ok
        ({ st with bos := upd st.bos bId none,
                   handles := (upd st.handles bo.handle
                     (some { hh2 with data_owner := 0, data := none })) },
         [Event.rmFbCall, Event.freeCall])) ∧
    (d.allocOk = true →
      (gralloc_drm_bo_create stc d pff w hgt fmt u).1 = some stc.nextBo ∧
      (gralloc_drm_bo_create stc d pff w hgt fmt u).2.2 =
        [Event.allocCall true] ∧
      ∃ st2, gralloc_drm_bo_decref
            ((gralloc_drm_bo_create stc d pff w hgt fmt u).2.1) stc.nextBo =
          Except.ok (st2, [Event.rmFbCall, Event.freeCall]) ∧
        st2.bos stc.nextBo = none) ∧
    (st.bos bId = some bo → 0 < bo.refcount →
      gralloc_drm_bo_destroy st bId = (st, [])) := by
  refine ⟨?_, ?_, ?_, ?_, ?_⟩
  · intro hb hr
    exact decref_alive st bId bo hb hr
  · intro hb hr him
    exact decref_destroy_local st bId bo hb hr him
  · intro hh2 hb hr him hht
    exact decref_destroy_imported st bId bo hh2 hb hr him hht
  · intro ha
    have hb4 : ((gralloc_drm_bo_create stc d pff w hgt fmt u).2.1).bos
        stc.nextBo =
        some { drm := d, imported := false, handle := stc.nextHandle,
               refcount := 1, lock_count := 0, locked_for := 0,
               fb_id := 0 } := by
      simp [gralloc_drm_bo_create, create_bo_handle, ha, upd_self]
    refine ⟨?_, ?_, ?_⟩
    · simp [gralloc_drm_bo_create, create_bo_handle, ha, upd_self]
    · simp [gralloc_drm_bo_create, create_bo_handle, ha, upd_self]
    · exact ⟨_, decref_destroy_local _ stc.nextBo _ hb4 rfl rfl,
        upd_self _ _ _⟩
  · intro hb hr
    have hr0 : bo.refcount ≠ 0 := by omega
    simp [gralloc_drm_bo_destroy, hb, hr0]

theorem claim_C6_decref_destruction_witness :
    drm0.allocOk = true ∧
    ((gralloc_drm_bo_create st0 drm0 (fun _ => 1) 4 4 1 0).1 =
        some st0.nextBo ∧
      (gralloc_drm_bo_create st0 drm0 (fun _ => 1) 4 4 1 0).2.2 =
        [Event.allocCall true] ∧
      ∃ st2, gralloc_drm_bo_decref
            ((gralloc_drm_bo_create st0 drm0 (fun _ => 1) 4 4 1 0).2.1)
            st0.nextBo =
          Except.ok (st2, [Event.rmFbCall, Event.freeCall]) ∧
        st2.bos st0.nextBo = none) ∧
    st0.bos 0 = some bo0 ∧ 0 < bo0.refcount ∧
    gralloc_drm_bo_destroy st0 0 = (st0, []) :=
  ⟨rfl,
   (claim_C6_decref_destruction st0 0 bo0 st0 drm0 (fun _ => 1)
      4 4 1 0).2.2.2.1 rfl,
   rfl, by decide,
   (claim_C6_decref_destruction st0 0 bo0 st0 drm0 (fun _ => 1)
      4 4 1 0).2.2.2.2 rfl (by decide)⟩

/-! ### Handle validation claims (C7, C8) -/

/-- C7: for a well-formed handle whose `data_owner` is the current process,
`validate_handle` returns the cached `data` field as-is with no state
change and no backend call; and with no context (`drm = none`) validation
never calls the backend, never mutates anything, and returns only the
already-cached reference (or nothing). -/
theorem claim_C7_validate_cached (st : PState) (hId : Nat) (h : Handle)
    (drm : Option Drm)
    (hh : st.handles hId = some h) (hm : h.magic = GRALLOC_DRM_HANDLE_MAGIC)
    (ho : h.data_owner = st.pid) :
    validate_handle st (some hId) drm = (h.data, st, []) ∧
    (∀ p, (validate_handle st p none).2.1 = st ∧
          (validate_handle st p none).2.2 = [] ∧
          ((validate_handle st p none).1 = none ∨
            ∃ i h2, gralloc_drm_handle st p = some i ∧
              st.handles i = some h2 ∧ h2.data_owner = st.pid ∧
              (validate_handle st p none).1 = h2.data)) := by
  constructor
  · simp [validate_handle, gralloc_drm_handle, hh, hm, ho]
  · intro p
    match p with
    | none => simp [validate_handle, gralloc_drm_handle]
    | some i =>
      match hsi : st.handles i with
      | none => simp [validate_handle, gralloc_drm_handle, hsi]
      | some h2 =>
        by_cases hm2 : h2.magic = GRALLOC_DRM_HANDLE_MAGIC
        · by_cases ho2 : h2.data_owner = st.pid
          · refine ⟨?_, ?_, Or.inr ⟨i, h2, ?_, hsi, ho2, ?_⟩⟩ <;>
              simp [validate_handle, gralloc_drm_handle, hsi, hm2, ho2]
          · refine ⟨?_, ?_, Or.inl ?_⟩ <;>
              simp [validate_handle, gralloc_drm_handle, hsi, hm2, ho2]
        · refine ⟨?_, ?_, Or.inl ?_⟩ <;>
            simp [validate_handle, gralloc_drm_handle, hsi, hm2]

theorem claim_C7_validate_cached_witness :
    st0.handles 0 = some h0 ∧ h0.magic = GRALLOC_DRM_HANDLE_MAGIC ∧
    h0.data_owner = st0.pid ∧
    validate_handle st0 (some 0) (some drm0) = (h0.data, st0, []) :=
  ⟨rfl, rfl, rfl,
   (claim_C7_validate_cached st0 0 h0 (some drm0) rfl rfl rfl).1⟩

/-- C8: when an import attempt fails under a non-null context (no backend
name, or backend alloc failure), `validate_handle` still overwrites the
handle's process-local fields with the current pid and a null object
reference; every later validate or register on that handle in this process
then fails (`-EINVAL` for register) without another backend call. -/
theorem claim_C8_failed_import_poisons (st : PState) (hId : Nat) (h : Handle)
    (d : Drm)
    (hh : st.handles hId = some h) (hm : h.magic = GRALLOC_DRM_HANDLE_MAGIC)
    (ho : h.data_owner ≠ st.pid) (hfail : h.name = 0 ∨ d.allocOk = false) :
    (validate_handle st (some hId) (some d)).1 = none ∧
    (validate_handle st (some hId) (some d)).2.1.handles hId =
      some { h with data_owner := st.pid, data := none } ∧
    (∀ d2 : Drm,
      validate_handle ((validate_handle st (some hId) (some d)).2.1)
          (some hId) (some d2) =
        (none, (validate_handle st (some hId) (some d)).2.1, [])) ∧
    (∀ d2 : Drm,
      gralloc_drm_handle_register
          ((validate_handle st (some hId) (some d)).2.1) (some hId) d2 =
        (-EINVAL, (validate_handle st (some hId) (some d)).2.1, [])) := by
  have hstate : (validate_handle st (some hId) (some d)).2.1 =
      { st with handles := (upd st.handles hId
          (some { h with data_owner := st.pid, data := none })) } := by
    by_cases hn : h.name = 0
    · simp [validate_handle, gralloc_drm_handle, hh, hm, ho, hn]
    · have ha : d.allocOk = false := hfail.resolve_left hn
      simp [validate_handle, gralloc_drm_handle, hh, hm, ho, hn, ha]
  have hres : (validate_handle st (some hId) (some d)).1 = none := by
    by_cases hn : h.name = 0
    · simp [validate_handle, gralloc_drm_handle, hh, hm, ho, hn]
    · have ha : d.allocOk = false := hfail.resolve_left hn
      simp [validate_handle, gralloc_drm_handle, hh, hm, ho, hn, ha]
  have hvalid : ∀ d2 : Drm,
      validate_handle ((validate_handle st (some hId) (some d)).2.1)
          (some hId) (some d2) =
        (none, (validate_handle st (some hId) (some d)).2.1, []) := by
    intro d2
    rw [hstate]
    simp [validate_handle, gralloc_drm_handle, upd_self, hm]
  refine ⟨hres, ?_, hvalid, ?_⟩
  · rw [hstate]
    simp [upd_self]
  · intro d2
    simp [gralloc_drm_handle_register, hvalid d2]

theorem claim_C8_failed_import_poisons_witness :
    stNoName.handles 0 = some hNoName ∧
    hNoName.magic = GRALLOC_DRM_HANDLE_MAGIC ∧
    hNoName.data_owner ≠ stNoName.pid ∧ hNoName.name = 0 ∧
    (validate_handle stNoName (some 0) (some drm0)).1 = none ∧
    (validate_handle stNoName (some 0) (some drm0)).2.1.handles 0 =
      some { hNoName with data_owner := stNoName.pid, data := none } ∧
    gralloc_drm_handle_register
        ((validate_handle stNoName (some 0) (some drm0)).2.1) (some 0) drm0 =
      (-EINVAL, (validate_handle stNoName (some 0) (some drm0)).2.1, []) := by
  have hthm := claim_C8_failed_import_poisons stNoName 0 hNoName drm0 rfl rfl
    (by decide) (Or.inl rfl)
  exact ⟨rfl, rfl, by decide, rfl, hthm.1, hthm.2.1, hthm.2.2.2 drm0⟩

/-! ### Query and resolve-format claims (C9, C10) -/

/-- C9: `gralloc_drm_resolve_format` dereferences `handle->data` (and then
`bo->drm`) before its null-handle guard, so for every input that fails the
structural/magic check the function hits a NULL dereference instead of
returning cleanly — the guard never prevents it. -/
theorem claim_C9_resolve_format_null_deref (st : PState) (p : Option Nat)
    (hfail : gralloc_drm_handle st p = none) :
    gralloc_drm_resolve_format st p = Except.error Fault.nullDeref := by
  unfold gralloc_drm_resolve_format
  rw [hfail]

theorem claim_C9_resolve_format_null_deref_witness :
    gralloc_drm_handle st0 none = none ∧
    gralloc_drm_resolve_format st0 none = Except.error Fault.nullDeref :=
  ⟨rfl, claim_C9_resolve_format_null_deref st0 none rfl⟩

/-- C10: on any input that fails the structural/magic check,
`gralloc_drm_get_gem_handle` returns `0` (the absent-name value) and
`gralloc_drm_get_prime_fd` returns `-1`; on a well-formed handle they
return the stored backend name and prime fd. -/
theorem claim_C10_query_sentinels (st : PState) (p : Option Nat) (hId : Nat)
    (h : Handle) :
    (gralloc_drm_handle st p = none →
      gralloc_drm_get_gem_handle st p = 0 ∧
      gralloc_drm_get_prime_fd st p = -1) ∧
    (st.handles hId = some h → h.magic = GRALLOC_DRM_HANDLE_MAGIC →
      gralloc_drm_get_gem_handle st (some hId) = h.name ∧
      gralloc_drm_get_prime_fd st (some hId) = h.prime_fd) := by
  constructor
  · intro hf
    constructor <;>
      simp [gralloc_drm_get_gem_handle, gralloc_drm_get_prime_fd, hf]
  · intro hh hm
    constructor <;>
      simp [gralloc_drm_get_gem_handle, gralloc_drm_get_prime_fd,
        gralloc_drm_handle, hh, hm]

theorem claim_C10_query_sentinels_witness :
    gralloc_drm_handle st0 (some 5) = none ∧
    gralloc_drm_get_gem_handle st0 (some 5) = 0 ∧
    gralloc_drm_get_prime_fd st0 (some 5) = -1 ∧
    gralloc_drm_get_gem_handle st0 (some 0) = h0.name ∧
    gralloc_drm_get_prime_fd st0 (some 0) = h0.prime_fd := by
  have h1 := (claim_C10_query_sentinels st0 (some 5) 0 h0).1 (by decide)
  have h2 := (claim_C10_query_sentinels st0 (some 5) 0 h0).2 rfl rfl
  exact ⟨by decide, h1.1, h1.2, h2.1, h2.2⟩

/-! ### Register/unregister round trip claim (C2) -/

/-- C2 counterexample: on a locally created handle (`st0`: fresh bo,
refcount 1, cached for the current process), registering once succeeds;
unregistering once succeeds and restores the refcount; but the second
unregister — one more than the number of registrations — is not an
invalid-argument error: the decrement destroys the object and the code then
reads the freed object's `imported` flag, a use-after-free. -/
theorem claim_C2_counterexample :
    (gralloc_drm_handle_register st0 (some 0) drm0).1 = 0 ∧
    unregisterOutcome st0r (some 0) = Except.ok 0 ∧
    unregisterOutcome st0ru (some 0) = Except.error Fault.useAfterFree ∧
    unregisterOutcome st0ru (some 0) ≠ Except.ok (-EINVAL) :=
  ⟨rfl, rfl, rfl, fun hcon => Except.noConfusion hcon⟩

/-- C2 (amended): for a locally-created handle (non-imported bo cached
for the current process), registering N times and then unregistering N
times succeeds throughout and returns the bo — in particular its refcount —
exactly to its pre-registration value.  But unregistering one more time
than registered is not an invalid-argument failure: when the
pre-registration refcount was 1 the extra unregister destroys the object
and then reads the freed object's imported flag (a use-after-free).  An
unregister does return `-EINVAL` exactly when lookup finds nothing, e.g. on
a well-formed handle whose process-local owner is not the current process
(the state a handle is left in after an imported object's destruction). -/
theorem claim_C2_register_unregister (st : PState) (hId bId : Nat)
    (h : Handle) (bo : Bo) (d : Drm) (N : Nat)
    (hh : st.handles hId = some h) (hm : h.magic = GRALLOC_DRM_HANDLE_MAGIC)
    (ho : h.data_owner = st.pid) (hd : h.data = some bId)
    (hb : st.bos bId = some bo) (him : bo.imported = false)
    (hr : 1 ≤ bo.refcount) (hN : 1 ≤ N) :
    unregisterAllOk (registerN st (some hId) d N) (some hId) N ∧
    (unregisterN (registerN st (some hId) d N) (some hId) N).bos bId =
      some bo ∧
    (bo.refcount = 1 →
      unregisterOutcome
          (unregisterN (registerN st (some hId) d N) (some hId) N)
          (some hId) =
        Except.error Fault.useAfterFree) ∧
    (∀ st2 hId2 h2, st2.handles hId2 = some h2 →
      h2.magic = GRALLOC_DRM_HANDLE_MAGIC → h2.data_owner ≠ st2.pid →
      unregisterOutcome st2 (some hId2) = Except.ok (-EINVAL)) := by
  have hst : st = withRefcount st bId bo bo.refcount :=
    (withRefcount_eq_self st bId bo hb).symm
  have hreg : registerN st (some hId) d N =
      withRefcount st bId bo (bo.refcount + N) := by
    conv_lhs => rw [hst]
    exact registerN_fam st hId bId h bo d hh hm ho hd N bo.refcount
  have hlt : (N : Int) < bo.refcount + N := by omega
  obtain ⟨hun, hok⟩ :=
    unregisterN_fam st hId bId h bo hh hm ho hd him N (bo.refcount + N) hlt
  refine ⟨?_, ?_, ?_, ?_⟩
  · rw [hreg]
    exact hok
  · rw [hreg, hun]
    have harith : bo.refcount + (N : Int) - N = bo.refcount := by ring
    rw [harith, withRefcount_bos]
  · intro hr1
    rw [hreg, hun]
    have harith : bo.refcount + (N : Int) - N = 1 := by omega
    rw [harith]
    unfold unregisterOutcome
    rw [unregister_owner_destroy_faults (withRefcount st bId bo 1) hId bId h
      { bo with refcount := 1 } hh hm ho hd (upd_self _ _ _) rfl]
    rfl
  · intro st2 hId2 h2 hh2 hm2 ho2
    simp [unregisterOutcome, gralloc_drm_handle_unregister, validate_handle,
      gralloc_drm_handle, Except.map, hh2, hm2, ho2]

theorem claim_C2_register_unregister_witness :
    st0.handles 0 = some h0 ∧ st0.bos 0 = some bo0 ∧
    bo0.imported = false ∧ 1 ≤ bo0.refcount ∧ bo0.refcount = 1 ∧
    unregisterAllOk (registerN st0 (some 0) drm0 1) (some 0) 1 ∧
    (unregisterN (registerN st0 (some 0) drm0 1) (some 0) 1).bos 0 =
      some bo0 ∧
    unregisterOutcome (unregisterN (registerN st0 (some 0) drm0 1)
        (some 0) 1) (some 0) =
      Except.error Fault.useAfterFree := by
  have hthm := claim_C2_register_unregister st0 0 0 h0 bo0 drm0 1
    rfl rfl rfl rfl rfl rfl (by decide) (by decide)
  exact ⟨rfl, rfl, rfl, by decide, rfl, hthm.1, hthm.2.1, hthm.2.2.1 rfl⟩

end GrallocDrm
